import Mathlib

/-!
Verification of the WhistleSpace moderation pipeline and user-enforcement
logic against its specification.

The JavaScript sources are embedded shallowly:

* `utils/moderateFeedback.js` (the snapshot whose `moderateFeedback`
  orchestrates rule filter → primary AI provider → failure-only secondary):
  `ruleBasedModeration`, `moderateFeedback`.  Regular-expression tests are
  embedded by their match semantics (`regex.test s` holds iff some position
  of `s` begins a match), spelled out as executable window searches.
* `utils/userNotifications.js`: `NOTIFICATION_TEMPLATES`, `sendNotification`,
  `sendEmailNotification`, `handleUserWarning`, `notifyUserUnbanned`,
  `markNotificationsAsRead`.
* `controller/admin.controller.js`: `unbanUser`.
* `controller/feedback.controller.js`: `handleHarassmentWarning`.

Machine integers do not occur (counters are unbounded JS numbers used as
small naturals); dates are modelled as milliseconds since the epoch
(`Nat`), with `setHours(getHours() + 24)` embedded as `+ 24*60*60*1000`.
-/

namespace WhistleSpace

/-! ### Character classes used by the JavaScript regexes

JavaScript regex `\w` (hence the word boundary `\b`) is `[A-Za-z0-9_]`;
`\d` is `[0-9]`; `.` without the `s` flag matches every character except
the four line terminators. -/

def isWordChar (c : Char) : Bool :=
  ('a' ≤ c && c ≤ 'z') || ('A' ≤ c && c ≤ 'Z') || ('0' ≤ c && c ≤ '9') || c = '_'

def isDigitChar (c : Char) : Bool :=
  '0' ≤ c && c ≤ '9'

def isUpperAZ (c : Char) : Bool :=
  'A' ≤ c && c ≤ 'Z'

/-- JavaScript `.` (no `s` flag): any character except a line terminator. -/
def jsDotMatch (c : Char) : Bool :=
  !(c = '\n' || c = '\r' || c = Char.ofNat 0x2028 || c = Char.ofNat 0x2029)

/-- The characters removed by JavaScript `String.prototype.trim`
(whitespace and line terminators; the common ones suffice here since the
claims only exercise ASCII). -/
def isJsWhitespace (c : Char) : Bool :=
  c = ' ' || c = '\t' || c = '\n' || c = '\r' ||
  c = Char.ofNat 0x0B || c = Char.ofNat 0x0C || c = Char.ofNat 0xA0 ||
  c = Char.ofNat 0xFEFF || c = Char.ofNat 0x2028 || c = Char.ofNat 0x2029

/-! ### Window-based embedding of the regex tests -/

/-- The window of `n` characters of `l` starting at index `i`. -/
def window (l : List Char) (i n : Nat) : List Char :=
  (l.drop i).take n

/-- `regex.test` semantics: some index `i` starts a full window of `n`
characters satisfying `p`. -/
def existsWindow (l : List Char) (n : Nat) (p : List Char → Bool) : Bool :=
  (List.range (l.length + 1)).any fun i =>
    decide (i + n ≤ l.length) && p (window l i n)

/-- A window consisting of `k` copies of one (`.`-matchable) character:
the match semantics of `/(.)\1{5,}/` (`k = 6`) and `/(.)\1{8,}/` (`k = 9`). -/
def allSameDotChar (w : List Char) : Bool :=
  match w with
  | [] => false
  | c :: r => jsDotMatch c && r.all fun d => d = c

/-- `/(.)\1{k-1,}/.test l`: somewhere, `k` consecutive identical
characters (the captured character must be matchable by `.`). -/
def regexRepeatedChar (k : Nat) (l : List Char) : Bool :=
  existsWindow l k allSameDotChar

/-- `/[A-Z]{15,}/.test l`: 15 consecutive uppercase ASCII letters. -/
def regexUpperRun (l : List Char) : Bool :=
  existsWindow l 15 fun w => w.all isUpperAZ

/-- `/\b\d{10,}\b/.test l`: a run of at least 10 digits delimited on both
sides by a word boundary.  Since digits are word characters, the
neighbouring characters (when they exist) must not be word characters,
which also forces the run to be maximal. -/
def regexLongNumber (l : List Char) : Bool :=
  (List.range (l.length + 1)).any fun i =>
    (List.range (l.length + 1)).any fun j =>
      decide (i + 10 ≤ j) && decide (j ≤ l.length) &&
      (window l i (j - i)).all isDigitChar &&
      (match i with
       | 0 => true
       | i' + 1 => !(isWordChar (l.getD i' ' '))) &&
      (decide (j = l.length) || !(isWordChar (l.getD j ' ')))

/-- Does `l` start with `k` consecutive copies of `chunk`? -/
def leadsWithCopies (chunk : List Char) : Nat → List Char → Bool
  | 0, _ => true
  | k + 1, l => decide ((l.take chunk.length) = chunk) &&
      leadsWithCopies chunk k (l.drop chunk.length)

/-- `/(.{1,3})\1{4,}/.test l`: somewhere, a chunk of 1–3 characters (each
matchable by `.`) followed by at least 4 further literal copies of it. -/
def regexRepeatedChunk (l : List Char) : Bool :=
  (List.range (l.length + 1)).any fun i =>
    [1, 2, 3].any fun chunkLen =>
      decide (i + 5 * chunkLen ≤ l.length) &&
      (window l i chunkLen).all jsDotMatch &&
      leadsWithCopies (window l i chunkLen) 5 (l.drop i)

/-- `needle.isSubstringOf hay` in the sense of JavaScript
`hay.includes(needle)`. -/
def listContainsSub (needle : List Char) : List Char → Bool
  | [] => needle.isEmpty
  | c :: rest => decide (((c :: rest).take needle.length) = needle) ||
      listContainsSub needle rest

/-! ### `ruleBasedModeration` (utils/moderateFeedback.js) -/

/-- The fixed bad-word list of `ruleBasedModeration`. -/
def badWords : List (List Char) :=
  ["spam", "scam", "hate", "abuse", "threat", "violence", "die", "stupid",
   "idiot", "moron", "loser", "ugly", "fat", "racist"].map String.toList

/-- The `details` object returned by `ruleBasedModeration`. -/
structure RuleDetails where
  badWordsHit : Bool
  suspicious : Bool
  tooLong : Bool
  spam : Bool
  deriving Repr, DecidableEq

/-- The common verdict shape `{ flagged, reason, provider }` returned by
every stage of the pipeline. -/
structure ModResult where
  flagged : Bool
  reason : String
  provider : String
  deriving Repr, DecidableEq

/-- Verdict of the local rule filter, providing additionally the
`details` record of which rule fired. -/
structure RuleVerdict extends ModResult where
  details : RuleDetails
  deriving Repr, DecidableEq

/-- `ruleBasedModeration(text)`: bad-word substring scan on the
lowercased text, the four suspicious-pattern regexes, the length cap, and
the 9+-repeat spam check.  (`Char.toLower` agrees with JavaScript
`toLowerCase` on the ASCII range, which is all the bad-word scan can
match.) -/
def ruleBasedModeration (text : List Char) : RuleVerdict :=
  let lowerText := text.map Char.toLower
  let containsBadWords := badWords.any fun w => listContainsSub w lowerText
  let containsSuspicious :=
    regexRepeatedChar 6 text || regexUpperRun text ||
    regexLongNumber text || regexRepeatedChunk text
  let tooLong := decide (text.length > 2000)
  let hasSpam := regexRepeatedChar 9 text
  let flagged := containsBadWords || containsSuspicious || tooLong || hasSpam
  { flagged := flagged
    provider := "Rule-based Filter"
    reason := if flagged then "Content flagged by automated rules" else "Clean"
    details :=
      { badWordsHit := containsBadWords
        suspicious := containsSuspicious
        tooLong := tooLong
        spam := hasSpam } }

/-! ### `moderateFeedback` (utils/moderateFeedback.js)

The two external classifiers are opaque: a call either returns a verdict
or throws (timeout / transport / parse failure).  The environment is
abstracted as `hasPerspective` / `hasOpenAI` (presence of the API keys)
plus a behaviour function `callAdapter` giving the outcome of each adapter
for this submission (`none` = the call throws).  `moderateFeedback` returns
its verdict together with the list of adapter calls actually made, in
order. -/

/-- The two classifier adapters (`perspectiveModeration`,
`openAIModeration`). -/
inductive AdapterCall where
  | perspective
  | openai
  deriving Repr, DecidableEq

/-- `moderateFeedback(text)`.  Structure mirrors the source: empty check,
rule filter with early return, primary selection (Perspective preferred),
primary call, secondary only in the catch branch of the primary, final
"Clean"/"All" verdict.  (`!text || text.trim().length === 0` holds exactly
when every character is JS whitespace.) -/
def moderateFeedback (hasPerspective hasOpenAI : Bool)
    (callAdapter : AdapterCall → Option ModResult) (text : List Char) :
    ModResult × List AdapterCall :=
  if text.all isJsWhitespace then
    ({ flagged := false, reason := "Empty text", provider := "validation" }, [])
  else
    let ruleResult := ruleBasedModeration text
    if ruleResult.flagged then (ruleResult.toModResult, [])
    else
      let primaryProvider : Option AdapterCall :=
        if hasPerspective then some .perspective
        else if hasOpenAI then some .openai
        else none
      let secondaryProvider : Option AdapterCall :=
        if hasPerspective && hasOpenAI then
          if primaryProvider = some .perspective then some .openai
          else some .perspective
        else none
      match primaryProvider with
      | none =>
          ({ flagged := false, reason := "Clean", provider := "Rule-based only" }, [])
      | some p =>
          match callAdapter p with
          | some primaryResult =>
              if primaryResult.flagged then (primaryResult, [p])
              else ({ flagged := false, reason := "Clean", provider := "All" }, [p])
          | none =>
              match secondaryProvider with
              | none =>
                  ({ flagged := false, reason := "Clean", provider := "All" }, [p])
              | some s =>
                  match callAdapter s with
                  | some secondaryResult =>
                      if secondaryResult.flagged then (secondaryResult, [p, s])
                      else ({ flagged := false, reason := "Clean", provider := "All" }, [p, s])
                  | none =>
                      ({ flagged := false, reason := "Clean", provider := "All" }, [p, s])

/-! ### User state (User.model.js is not part of this snapshot)

`handleUserWarning` and the notification helpers operate on a Mongoose
`User` document carrying `warnings`, `banUntil`, `flagHistory` and
`notifications`.  Times are milliseconds since the epoch. -/

/-- One entry of `user.flagHistory`. -/
structure FlagEntry where
  reason : String
  flagText : String
  actionTaken : String
  timestamp : Nat
  deriving Repr, DecidableEq

/-- One entry of `user.notifications` (`_id` is the Mongo-assigned id,
modelled as a string supplied at creation). -/
structure Notification where
  id : String
  title : String
  message : String
  ntype : String
  severity : String
  read : Bool
  timestamp : Nat
  templateKey : String
  deriving Repr, DecidableEq

/-- The slice of the `User` document the enforcement and notification
code reads and writes. -/
structure User where
  warnings : Nat
  banUntil : Option Nat
  flagHistory : List FlagEntry
  notifications : List Notification
  encryptedEmail : Option String
  deriving Repr, DecidableEq

/-- Modelled from the spec: `User.addFlag` lives in `models/User.model.js`,
which is missing from this snapshot; per the data model of the spec a
`FlagEntry` is "created once, at the moment a violation is confirmed, and
is never edited" and `flagHistory` is an ordered sequence that is only
ever appended to, so `addFlag` appends one entry. -/
def User.addFlag (u : User) (reason flagText actionTaken : String) (now : Nat) : User :=
  { u with flagHistory := u.flagHistory ++ [⟨reason, flagText, actionTaken, now⟩] }

/-! ### Notification dispatcher (utils/userNotifications.js) -/

/-- One entry of `NOTIFICATION_TEMPLATES`. -/
structure NotificationTemplate where
  title : String
  message : String
  ntype : String
  severity : String
  deriving Repr, DecidableEq

/-- The `NOTIFICATION_TEMPLATES` table (literal braces of the template
messages are written with their character codes `{` = `\x7b`,
`}` = `\x7d`). -/
def NOTIFICATION_TEMPLATES : String → Option NotificationTemplate
  | "FIRST_WARNING" => some
      { title := "⚠️ Community Guidelines Reminder"
        message := "You have been flagged once for potentially inappropriate content. Please review our community guidelines to ensure your future submissions are constructive and respectful."
        ntype := "warning", severity := "low" }
  | "SECOND_WARNING" => some
      { title := "⚠️ Second Warning - Account at Risk"
        message := "You have received two warnings for policy violations. One more violation may result in temporary account suspension. Please ensure all future feedback follows our community standards."
        ntype := "warning", severity := "medium" }
  | "FINAL_WARNING" => some
      { title := "🚨 Final Warning - Immediate Action Required"
        message := "This is your final warning. You have accumulated multiple violations. Any further inappropriate behavior will result in account suspension. Please review our terms of service immediately."
        ntype := "warning", severity := "high" }
  | "TEMPORARY_BAN" => some
      { title := "🚫 Account Temporarily Suspended"
        message := "Your account has been temporarily suspended for \x7bduration\x7d due to repeated policy violations. You can resume using the platform after \x7bunbanDate\x7d. During this time, please review our community guidelines."
        ntype := "ban", severity := "critical" }
  | "ACCOUNT_UNBANNED" => some
      { title := "✅ Account Reinstated"
        message := "Your account suspension has been lifted. Welcome back! Please remember to follow our community guidelines to maintain a positive environment for all users."
        ntype := "info", severity := "low" }
  | "HARASSMENT_DETECTED" => some
      { title := "🛡️ Content Under Review"
        message := "Your recent submission has been flagged for potential harassment. Our team is reviewing it. If you believe this is an error, please contact support."
        ntype := "review", severity := "medium" }
  | "WELCOME" => some
      { title := "🎉 Welcome to WhistleSpace!"
        message := "Thank you for joining our community! Please take a moment to review our community guidelines to ensure a positive experience for everyone."
        ntype := "info", severity := "low" }
  | _ => none

/-- Left-to-right, non-overlapping replace-all on character lists (the
semantics of JavaScript `replace` with a global regex whose pattern is a
plain word).  The fuel argument (instantiated with the list length) makes
the recursion structural so that it evaluates by kernel reduction. -/
def replaceAllAux (pattern repl : List Char) : Nat → List Char → List Char
  | 0, l => l
  | _ + 1, [] => []
  | fuel + 1, c :: rest =>
      if pattern ≠ [] ∧ (c :: rest).take pattern.length = pattern then
        repl ++ replaceAllAux pattern repl fuel ((c :: rest).drop pattern.length)
      else c :: replaceAllAux pattern repl fuel rest

/-- JavaScript `message.replace(new RegExp(pattern, "g"), repl)` for a
plain-word pattern. -/
def jsReplaceAll (s pattern repl : String) : String :=
  ⟨replaceAllAux pattern.data repl.data s.data.length s.data⟩

/-- Placeholder substitution: each `variables` key `k` has every
occurrence of the text `{k}` replaced by its value (JavaScript
`message.replace(new RegExp(..., "g"), variables[key])`; literal braces
are written `\x7b` / `\x7d`). -/
def substituteVars (message : String) (vars : List (String × String)) : String :=
  vars.foldl (fun m kv => jsReplaceAll m ("\x7b" ++ kv.1 ++ "\x7d") kv.2) message

/-- `transporter.sendMail`: the external mailer either succeeds or fails;
its outcome for this send is the abstract input `mailerOk`. -/
def sendMail (mailerOk : Bool) : Except String Unit :=
  if mailerOk then .ok () else .error "mail transport failure"

/-- `sendEmailNotification(user, notification)`: the whole body is inside
`try { ... } catch (error) { console.error(...) }`, so a mailer failure is
swallowed (logged only) and nothing is thrown to the caller. -/
def sendEmailNotification (mailerOk : Bool) : Except String Unit :=
  match sendMail mailerOk with
  | .ok _ => .ok ()
  | .error _ => .ok ()

/-- `sendNotification(userId, templateKey, variables, sendEmail)`.
The user lookup is modelled by operating on the user value directly; the
Mongo `_id` of the created notification is the input `freshId`.  Returns
the success flag together with the updated user.  The notification is
pushed and saved first; the optional email step follows and its
(swallowed) failure cannot reach the caller. -/
def sendNotification (u : User) (templateKey : String)
    (vars : List (String × String)) (sendEmail : Bool)
    (mailerOk : Bool) (freshId : String) (now : Nat) : Bool × User :=
  match NOTIFICATION_TEMPLATES templateKey with
  | none => (false, u)
  | some template =>
      let message := substituteVars template.message vars
      let notification : Notification :=
        { id := freshId, title := template.title, message := message
          ntype := template.ntype, severity := template.severity
          read := false, timestamp := now, templateKey := templateKey }
      let u' : User := { u with notifications := u.notifications ++ [notification] }
      let emailStep : Except String Unit :=
        if sendEmail && u'.encryptedEmail.isSome then sendEmailNotification mailerOk
        else .ok ()
      match emailStep with
      | .ok _ => (true, u')
      | .error _ => (false, u)

/-- JavaScript `toLowerCase` on a string (structurally recursive so that
it evaluates by kernel reduction). -/
def lowerString (s : String) : String :=
  ⟨s.data.map Char.toLower⟩

/-- stand-in for `Date.prototype.toLocaleString` in the `unbanDate`
variable (the precise rendering is irrelevant to every claim). -/
def formatBanDate : Option Nat → String
  | none => ""
  | some n => toString n

/-- Result object of `handleUserWarning`.  `notifiedAdmins` records
whether `notifyAdminsOfViolation` was invoked (the code calls it exactly
when `warningCount >= 3`). -/
structure WarnResult where
  success : Bool
  warningCount : Nat
  actionTaken : String
  banUntil : Option Nat
  message : String
  notifiedAdmins : Bool
  deriving Repr, DecidableEq

/-- `handleUserWarning(userId, violationType, feedbackText)`: append a
"Warning" flag, increment `warnings`, escalate on the new count
(1 / 2 / 3 / ≥ 4), on ≥ 4 set `banUntil = now + 24h`, reset `warnings`
to 0 and append a second flag with action "Temporary Ban", then send the
user notification (email included) and, from count 3 on, the admin
alert. -/
def handleUserWarning (u : User) (violationType feedbackText : String)
    (now : Nat) (mailerOk : Bool) (freshId : String) : WarnResult × User :=
  let u1 := (u.addFlag violationType feedbackText "Warning" now)
  let u2 : User := { u1 with warnings := u1.warnings + 1 }
  let warningCount := u2.warnings
  let escalation : String × Option String × String × User :=
    if warningCount = 1 then ("FIRST_WARNING", none, "Warning", u2)
    else if warningCount = 2 then ("SECOND_WARNING", none, "Warning", u2)
    else if warningCount = 3 then ("FINAL_WARNING", none, "Warning", u2)
    else
      let banUntil := now + 24 * 60 * 60 * 1000
      let ub : User := { u2 with banUntil := some banUntil, warnings := 0 }
      let ub' := ub.addFlag violationType feedbackText "Temporary Ban" now
      ("TEMPORARY_BAN", some "24 hours", "Temporary Ban", ub')
  let notificationKey := escalation.1
  let banDuration := escalation.2.1
  let actionTaken := escalation.2.2.1
  let u3 := escalation.2.2.2
  let vars :=
    [("duration", banDuration.getD ""),
     ("unbanDate", formatBanDate u3.banUntil),
     ("violationType", violationType)]
  let u4 := (sendNotification u3 notificationKey vars true mailerOk freshId now).2
  ({ success := true
     warningCount := warningCount
     actionTaken := actionTaken
     banUntil := u3.banUntil
     message := "User received " ++ lowerString actionTaken
     notifiedAdmins := decide (3 ≤ warningCount) }, u4)

/-- `notifyUserUnbanned(userId, unbannedBy)`. -/
def notifyUserUnbanned (u : User) (unbannedBy : String)
    (mailerOk : Bool) (freshId : String) (now : Nat) : Bool × User :=
  sendNotification u "ACCOUNT_UNBANNED" [("unbannedBy", unbannedBy)] true mailerOk freshId now

/-- `markNotificationsAsRead(userId, notificationIds)`: marks a
notification read when the id list is empty or contains its id. -/
def markNotificationsAsRead (u : User) (notificationIds : List String) : Bool × User :=
  (true,
   { u with
     notifications := u.notifications.map fun n =>
       if notificationIds.isEmpty || notificationIds.contains n.id then
         { n with read := true }
       else n })

/-! ### Admin user management (controller/admin.controller.js) -/

/-- `unbanUser`: `findByIdAndUpdate(userId, { banUntil: null })` and a
success message — nothing else on the document is touched and no
notification is produced. -/
def unbanUser (u : User) : String × User :=
  ("User unbanned successfully", { u with banUntil := none })

/-! ### `handleHarassmentWarning` (controller/feedback.controller.js) -/

/-- Result object of `handleHarassmentWarning`. -/
structure HarassResult where
  success : Bool
  error : Option String
  warningCount : Option Nat
  actionTaken : Option String
  banUntil : Option Nat
  deriving Repr, DecidableEq

/-- `WARNING_THRESHOLD` of feedback.controller.js. -/
def WARNING_THRESHOLD : Nat := 3

/-- `BAN_DURATION_HOURS` of feedback.controller.js. -/
def BAN_DURATION_HOURS : Nat := 24

/-- `handleHarassmentWarning(userId, feedbackText)`: rejects while a ban
is active (`banUntil && banUntil > now`), otherwise increments `warnings`
and bans (resetting `warnings`) once the threshold is reached. -/
def handleHarassmentWarning (u : User) (now : Nat) : HarassResult × User :=
  if (match u.banUntil with
      | some b => decide (now < b)
      | none => false) then
    ({ success := false, error := some "User is temporarily banned"
       warningCount := none, actionTaken := none, banUntil := none }, u)
  else
    let warnings := u.warnings + 1
    if WARNING_THRESHOLD ≤ warnings then
      let banUntil := now + BAN_DURATION_HOURS * 60 * 60 * 1000
      ({ success := true, error := none
         warningCount := some warnings
         actionTaken := some ("Banned for " ++ toString BAN_DURATION_HOURS ++ " hours")
         banUntil := some banUntil },
       { u with warnings := 0, banUntil := some banUntil })
    else
      ({ success := true, error := none
         warningCount := some warnings
         actionTaken := some ("Warning " ++ toString warnings ++ "/" ++ toString WARNING_THRESHOLD)
         banUntil := none },
       { u with warnings := warnings })

/-! ### Shared lemmas about the notification dispatcher -/

/-- `sendEmailNotification` never surfaces an error: the mailer failure is
caught and logged inside it. -/
theorem sendEmailNotification_ok (mailerOk : Bool) :
    sendEmailNotification mailerOk = Except.ok () := by
  cases mailerOk <;> rfl

/-- The notification built by `sendNotification` from a template. -/
def builtNotification (template : NotificationTemplate) (templateKey : String)
    (vars : List (String × String)) (freshId : String) (now : Nat) : Notification :=
  { id := freshId, title := template.title
    message := substituteVars template.message vars
    ntype := template.ntype, severity := template.severity
    read := false, timestamp := now, templateKey := templateKey }

theorem sendNotification_eq (u : User) (templateKey : String)
    (vars : List (String × String)) (sendEmail mailerOk : Bool)
    (freshId : String) (now : Nat) (template : NotificationTemplate)
    (h : NOTIFICATION_TEMPLATES templateKey = some template) :
    sendNotification u templateKey vars sendEmail mailerOk freshId now =
      (true, { u with notifications :=
          u.notifications ++ [builtNotification template templateKey vars freshId now] }) := by
  unfold sendNotification
  rw [h]
  simp [sendEmailNotification_ok, builtNotification]

theorem sendNotification_snd_warnings (u : User) (templateKey : String)
    (vars : List (String × String)) (sendEmail mailerOk : Bool)
    (freshId : String) (now : Nat) :
    ((sendNotification u templateKey vars sendEmail mailerOk freshId now).2).warnings
      = u.warnings := by
  unfold sendNotification
  cases NOTIFICATION_TEMPLATES templateKey with
  | none => rfl
  | some t => simp [sendEmailNotification_ok]

theorem sendNotification_snd_banUntil (u : User) (templateKey : String)
    (vars : List (String × String)) (sendEmail mailerOk : Bool)
    (freshId : String) (now : Nat) :
    ((sendNotification u templateKey vars sendEmail mailerOk freshId now).2).banUntil
      = u.banUntil := by
  unfold sendNotification
  cases NOTIFICATION_TEMPLATES templateKey with
  | none => rfl
  | some t => simp [sendEmailNotification_ok]

theorem sendNotification_snd_flagHistory (u : User) (templateKey : String)
    (vars : List (String × String)) (sendEmail mailerOk : Bool)
    (freshId : String) (now : Nat) :
    ((sendNotification u templateKey vars sendEmail mailerOk freshId now).2).flagHistory
      = u.flagHistory := by
  unfold sendNotification
  cases NOTIFICATION_TEMPLATES templateKey with
  | none => rfl
  | some t => simp [sendEmailNotification_ok]

/-! ### Shared lemmas about `handleUserWarning` -/

theorem handleUserWarning_result_warn (u : User) (vt ft : String) (now : Nat)
    (mailerOk : Bool) (freshId : String) (h : u.warnings + 1 < 4) :
    (handleUserWarning u vt ft now mailerOk freshId).1 =
      { success := true, warningCount := u.warnings + 1, actionTaken := "Warning"
        banUntil := u.banUntil, message := "User received warning"
        notifiedAdmins := decide (3 ≤ u.warnings + 1) } := by
  have h3 : u.warnings < 3 := by omega
  interval_cases h' : u.warnings <;>
    simp [handleUserWarning, User.addFlag, h'] <;> decide

theorem handleUserWarning_result_ban (u : User) (vt ft : String) (now : Nat)
    (mailerOk : Bool) (freshId : String) (h : 4 ≤ u.warnings + 1) :
    (handleUserWarning u vt ft now mailerOk freshId).1 =
      { success := true, warningCount := u.warnings + 1, actionTaken := "Temporary Ban"
        banUntil := some (now + 24 * 60 * 60 * 1000)
        message := "User received temporary ban"
        notifiedAdmins := true } := by
  have h1 : ¬(u.warnings + 1 = 1) := by omega
  have h2 : ¬(u.warnings + 1 = 2) := by omega
  have h3 : ¬(u.warnings + 1 = 3) := by omega
  have h4 : 3 ≤ u.warnings + 1 := by omega
  simp [handleUserWarning, User.addFlag, h1, h2, h3, h4]
  decide

theorem handleUserWarning_state_warn (u : User) (vt ft : String) (now : Nat)
    (mailerOk : Bool) (freshId : String) (h : u.warnings + 1 < 4) :
    ((handleUserWarning u vt ft now mailerOk freshId).2).warnings = u.warnings + 1 ∧
    ((handleUserWarning u vt ft now mailerOk freshId).2).banUntil = u.banUntil ∧
    ((handleUserWarning u vt ft now mailerOk freshId).2).flagHistory =
      u.flagHistory ++ [⟨vt, ft, "Warning", now⟩] := by
  have h3 : u.warnings < 3 := by omega
  interval_cases h' : u.warnings <;>
    simp [handleUserWarning, User.addFlag, h', sendNotification_snd_warnings,
      sendNotification_snd_banUntil, sendNotification_snd_flagHistory]

theorem handleUserWarning_state_ban (u : User) (vt ft : String) (now : Nat)
    (mailerOk : Bool) (freshId : String) (h : 4 ≤ u.warnings + 1) :
    ((handleUserWarning u vt ft now mailerOk freshId).2).warnings = 0 ∧
    ((handleUserWarning u vt ft now mailerOk freshId).2).banUntil =
      some (now + 24 * 60 * 60 * 1000) ∧
    ((handleUserWarning u vt ft now mailerOk freshId).2).flagHistory =
      u.flagHistory ++ [⟨vt, ft, "Warning", now⟩, ⟨vt, ft, "Temporary Ban", now⟩] := by
  have h1 : ¬(u.warnings + 1 = 1) := by omega
  have h2 : ¬(u.warnings + 1 = 2) := by omega
  have h3 : ¬(u.warnings + 1 = 3) := by omega
  simp [handleUserWarning, User.addFlag, h1, h2, h3, sendNotification_snd_warnings,
    sendNotification_snd_banUntil, sendNotification_snd_flagHistory]

/-! ### Claims C1–C3 : the escalation ladder of `handleUserWarning` -/

/-- C1: for a fresh user (`warnings = 0`, no ban), four sequential calls
of the violation handler `handleUserWarning` produce, in order, a Warning
decision with count 1, a Warning with count 2, a Warning with count 3
that triggers the admin alert, and on the fourth call a Temporary Ban
decision whose `banUntil` is `now + 24h` and whose stored warning count
is reset to 0. -/
theorem handleUserWarning_four_calls_escalation
    (fh : List FlagEntry) (ns : List Notification) (em : Option String)
    (vt ft : String) (t1 t2 t3 t4 : Nat) (m1 m2 m3 m4 : Bool)
    (i1 i2 i3 i4 : String) :
    let u0 : User := ⟨0, none, fh, ns, em⟩
    let c1 := handleUserWarning u0 vt ft t1 m1 i1
    let c2 := handleUserWarning c1.2 vt ft t2 m2 i2
    let c3 := handleUserWarning c2.2 vt ft t3 m3 i3
    let c4 := handleUserWarning c3.2 vt ft t4 m4 i4
    (c1.1.actionTaken = "Warning" ∧ c1.1.warningCount = 1 ∧ c1.1.notifiedAdmins = false) ∧
    (c2.1.actionTaken = "Warning" ∧ c2.1.warningCount = 2 ∧ c2.1.notifiedAdmins = false) ∧
    (c3.1.actionTaken = "Warning" ∧ c3.1.warningCount = 3 ∧ c3.1.notifiedAdmins = true) ∧
    (c4.1.actionTaken = "Temporary Ban" ∧ c4.1.warningCount = 4 ∧
      c4.1.banUntil = some (t4 + 24 * 60 * 60 * 1000) ∧
      c4.2.warnings = 0 ∧ c4.2.banUntil = some (t4 + 24 * 60 * 60 * 1000)) := by
  intro u0 c1 c2 c3 c4
  have hlt0 : u0.warnings + 1 < 4 := (by decide : (0 : Nat) + 1 < 4)
  have R1 : c1.1 =
      { success := true, warningCount := 1, actionTaken := "Warning"
        banUntil := none, message := "User received warning"
        notifiedAdmins := false } :=
    handleUserWarning_result_warn u0 vt ft t1 m1 i1 hlt0
  have W1 : c1.2.warnings = 1 :=
    (handleUserWarning_state_warn u0 vt ft t1 m1 i1 hlt0).1
  have hlt1 : c1.2.warnings + 1 < 4 := by omega
  have R2 : c2.1 =
      { success := true, warningCount := c1.2.warnings + 1, actionTaken := "Warning"
        banUntil := c1.2.banUntil, message := "User received warning"
        notifiedAdmins := decide (3 ≤ c1.2.warnings + 1) } :=
    handleUserWarning_result_warn c1.2 vt ft t2 m2 i2 hlt1
  rw [W1] at R2
  norm_num at R2
  have W2 : c2.2.warnings = 2 := by
    have h : c2.2.warnings = c1.2.warnings + 1 :=
      (handleUserWarning_state_warn c1.2 vt ft t2 m2 i2 hlt1).1
    omega
  have hlt2 : c2.2.warnings + 1 < 4 := by omega
  have R3 : c3.1 =
      { success := true, warningCount := c2.2.warnings + 1, actionTaken := "Warning"
        banUntil := c2.2.banUntil, message := "User received warning"
        notifiedAdmins := decide (3 ≤ c2.2.warnings + 1) } :=
    handleUserWarning_result_warn c2.2 vt ft t3 m3 i3 hlt2
  rw [W2] at R3
  norm_num at R3
  have W3 : c3.2.warnings = 3 := by
    have h : c3.2.warnings = c2.2.warnings + 1 :=
      (handleUserWarning_state_warn c2.2 vt ft t3 m3 i3 hlt2).1
    omega
  have hlt3 : 4 ≤ c3.2.warnings + 1 := by omega
  have R4 : c4.1 =
      { success := true, warningCount := c3.2.warnings + 1
        actionTaken := "Temporary Ban"
        banUntil := some (t4 + 24 * 60 * 60 * 1000)
        message := "User received temporary ban", notifiedAdmins := true } :=
    handleUserWarning_result_ban c3.2 vt ft t4 m4 i4 hlt3
  rw [W3] at R4
  norm_num at R4
  have S4w : c4.2.warnings = 0 :=
    (handleUserWarning_state_ban c3.2 vt ft t4 m4 i4 hlt3).1
  have S4b : c4.2.banUntil = some (t4 + 24 * 60 * 60 * 1000) :=
    (handleUserWarning_state_ban c3.2 vt ft t4 m4 i4 hlt3).2.1
  refine ⟨⟨?_, ?_, ?_⟩, ⟨?_, ?_, ?_⟩, ⟨?_, ?_, ?_⟩, ?_, ?_, ?_, ?_, ?_⟩ <;>
    simp [R1, R2, R3, R4, S4w, S4b]

/-- C2, counterexample: `handleUserWarning` performs no active-ban check.
For a user whose `banUntil` (1000) is strictly in the future of `now`
(0), the call still succeeds as a fresh violation: the warning count is
incremented and a flag entry is appended, contradicting the claimed
"no new violation, state unchanged" behaviour. -/
theorem handleUserWarning_ignores_active_ban_counterexample :
    let u : User := ⟨0, some 1000, [], [], none⟩
    (0 : Nat) < 1000 ∧
    (handleUserWarning u "Harassment" "abc" 0 true "n1").1.success = true ∧
    (handleUserWarning u "Harassment" "abc" 0 true "n1").1.actionTaken = "Warning" ∧
    (handleUserWarning u "Harassment" "abc" 0 true "n1").2.warnings = 1 ∧
    (handleUserWarning u "Harassment" "abc" 0 true "n1").2.flagHistory.length = 1 := by
  decide

/-- C2, amended: the active-ban gate exists only in
`handleHarassmentWarning` (feedback.controller.js).  For every user whose
`banUntil` is strictly in the future it returns the "User is temporarily
banned" rejection and leaves the user document entirely unchanged — in
particular `banUntil` is not extended; `handleUserWarning`
(userNotifications.js) has no such gate (see the counterexample). -/
theorem handleHarassmentWarning_rejects_active_ban
    (warnings : Nat) (fh : List FlagEntry) (ns : List Notification)
    (em : Option String) (now extra : Nat) :
    let u : User := ⟨warnings, some (now + extra + 1), fh, ns, em⟩
    handleHarassmentWarning u now =
      ({ success := false, error := some "User is temporarily banned"
         warningCount := none, actionTaken := none, banUntil := none }, u) := by
  intro u
  have h : now < now + extra + 1 := by omega
  simp [handleHarassmentWarning, h]

/-- C3, counterexample: on the banning (fourth) violation the code
appends a second `FlagEntry` with action "Temporary Ban" (it does not
overwrite the "Warning" entry appended at the start of the call), so four
sequential violations of a fresh user leave 5 flag entries
(4 × Warning, 1 × Temporary Ban), not the claimed 4. -/
theorem handleUserWarning_fourth_call_appends_flag_counterexample :
    let u0 : User := ⟨0, none, [], [], none⟩
    let c1 := handleUserWarning u0 "Harassment" "t" 10 true "a"
    let c2 := handleUserWarning c1.2 "Harassment" "t" 20 true "b"
    let c3 := handleUserWarning c2.2 "Harassment" "t" 30 true "c"
    let c4 := handleUserWarning c3.2 "Harassment" "t" 40 true "d"
    c4.2.flagHistory.map (fun e => e.actionTaken) =
      ["Warning", "Warning", "Warning", "Warning", "Temporary Ban"] ∧
    c4.2.flagHistory.length ≠ 4 := by
  decide

/-- C3, amended: four sequential violations of a fresh user leave exactly
5 flag entries: one "Warning" entry per call plus, on the banning fourth
call, an additional "Temporary Ban" entry appended after it (the
"Warning" entry of the fourth call is kept, not overwritten). -/
theorem handleUserWarning_four_calls_flag_history
    (fh : List FlagEntry) (ns : List Notification) (em : Option String)
    (vt ft : String) (t1 t2 t3 t4 : Nat) (m1 m2 m3 m4 : Bool)
    (i1 i2 i3 i4 : String) :
    let u0 : User := ⟨0, none, fh, ns, em⟩
    let c1 := handleUserWarning u0 vt ft t1 m1 i1
    let c2 := handleUserWarning c1.2 vt ft t2 m2 i2
    let c3 := handleUserWarning c2.2 vt ft t3 m3 i3
    let c4 := handleUserWarning c3.2 vt ft t4 m4 i4
    c4.2.flagHistory =
      fh ++ [⟨vt, ft, "Warning", t1⟩, ⟨vt, ft, "Warning", t2⟩,
             ⟨vt, ft, "Warning", t3⟩, ⟨vt, ft, "Warning", t4⟩,
             ⟨vt, ft, "Temporary Ban", t4⟩] := by
  intro u0 c1 c2 c3 c4
  have hlt0 : u0.warnings + 1 < 4 := (by decide : (0 : Nat) + 1 < 4)
  have W1 : c1.2.warnings = 1 :=
    (handleUserWarning_state_warn u0 vt ft t1 m1 i1 hlt0).1
  have F1 : c1.2.flagHistory = fh ++ [⟨vt, ft, "Warning", t1⟩] :=
    (handleUserWarning_state_warn u0 vt ft t1 m1 i1 hlt0).2.2
  have hlt1 : c1.2.warnings + 1 < 4 := by omega
  have W2 : c2.2.warnings = 2 := by
    have h : c2.2.warnings = c1.2.warnings + 1 :=
      (handleUserWarning_state_warn c1.2 vt ft t2 m2 i2 hlt1).1
    omega
  have F2 : c2.2.flagHistory = c1.2.flagHistory ++ [⟨vt, ft, "Warning", t2⟩] :=
    (handleUserWarning_state_warn c1.2 vt ft t2 m2 i2 hlt1).2.2
  have hlt2 : c2.2.warnings + 1 < 4 := by omega
  have W3 : c3.2.warnings = 3 := by
    have h : c3.2.warnings = c2.2.warnings + 1 :=
      (handleUserWarning_state_warn c2.2 vt ft t3 m3 i3 hlt2).1
    omega
  have F3 : c3.2.flagHistory = c2.2.flagHistory ++ [⟨vt, ft, "Warning", t3⟩] :=
    (handleUserWarning_state_warn c2.2 vt ft t3 m3 i3 hlt2).2.2
  have hlt3 : 4 ≤ c3.2.warnings + 1 := by omega
  have F4 : c4.2.flagHistory =
      c3.2.flagHistory ++ [⟨vt, ft, "Warning", t4⟩, ⟨vt, ft, "Temporary Ban", t4⟩] :=
    (handleUserWarning_state_ban c3.2 vt ft t4 m4 i4 hlt3).2.2
  rw [F4, F3, F2, F1]
  simp

/-! ### Claims C8–C10 : unban, notification dispatch, mark-read -/

/-- C8, counterexample: `unbanUser` clears `banUntil` but emits no
notification at all — for a banned user with an empty notification list
the list is still empty afterwards, so no "Account Reinstated"
notification is produced (the claim requires one). -/
theorem unbanUser_no_notification_counterexample :
    (unbanUser ⟨3, some 5000, [], [], none⟩).2 = ⟨3, none, [], [], none⟩ ∧
    (unbanUser ⟨3, some 5000, [], [], none⟩).2.notifications = [] := by
  decide

/-- C8, amended: `unbanUser` sets `banUntil` to `null` unconditionally,
leaves `warnings`, `flagHistory` and `notifications` untouched (in
particular it emits no "Account Reinstated" notification —
`notifyUserUnbanned` exists but is not invoked on this path), and is
idempotent. -/
theorem unbanUser_clears_ban_idempotent (u : User) :
    (unbanUser u).2.banUntil = none ∧
    (unbanUser u).2.warnings = u.warnings ∧
    (unbanUser u).2.flagHistory = u.flagHistory ∧
    (unbanUser u).2.notifications = u.notifications ∧
    unbanUser (unbanUser u).2 = unbanUser u := by
  simp [unbanUser]

/-- C9: when the template exists, `sendNotification` appends the in-app
notification and reports success, and the outcome — return value and
final user state alike — is identical whether the mailer succeeds
(`mailerOk = true`) or fails (`mailerOk = false`): an email delivery
failure neither rolls back the appended notification nor propagates to
the caller, and the enforcement state (`warnings`, `banUntil`,
`flagHistory`) is untouched. -/
theorem sendNotification_email_failure_harmless (u : User)
    (templateKey : String) (vars : List (String × String))
    (sendEmail : Bool) (freshId : String) (now : Nat)
    (template : NotificationTemplate)
    (h : NOTIFICATION_TEMPLATES templateKey = some template) :
    sendNotification u templateKey vars sendEmail false freshId now =
      sendNotification u templateKey vars sendEmail true freshId now ∧
    (sendNotification u templateKey vars sendEmail false freshId now).1 = true ∧
    (sendNotification u templateKey vars sendEmail false freshId now).2.notifications =
      u.notifications ++ [builtNotification template templateKey vars freshId now] ∧
    (sendNotification u templateKey vars sendEmail false freshId now).2.warnings = u.warnings ∧
    (sendNotification u templateKey vars sendEmail false freshId now).2.banUntil = u.banUntil ∧
    (sendNotification u templateKey vars sendEmail false freshId now).2.flagHistory =
      u.flagHistory := by
  rw [sendNotification_eq u templateKey vars sendEmail false freshId now template h,
    sendNotification_eq u templateKey vars sendEmail true freshId now template h]
  simp

/-- A concrete notification used by witnesses. -/
def demoNotification : Notification :=
  ⟨"a", "t", "m", "info", "low", false, 0, "WELCOME"⟩

/-- A concrete user used by witnesses (has a contact address, so the
email branch of `sendNotification` really runs). -/
def demoUser : User :=
  ⟨1, none, [], [demoNotification], some "enc"⟩

/-- Witness for C9 at a concrete user and the FIRST_WARNING template. -/
theorem sendNotification_email_failure_harmless_witness :
    NOTIFICATION_TEMPLATES "FIRST_WARNING" =
      some ((NOTIFICATION_TEMPLATES "FIRST_WARNING").getD ⟨"", "", "", ""⟩) ∧
    (sendNotification demoUser "FIRST_WARNING" [] true false "n1" 7 =
      sendNotification demoUser "FIRST_WARNING" [] true true "n1" 7 ∧
    (sendNotification demoUser "FIRST_WARNING" [] true false "n1" 7).1 = true ∧
    (sendNotification demoUser "FIRST_WARNING" [] true false "n1" 7).2.notifications =
      demoUser.notifications ++
        [builtNotification ((NOTIFICATION_TEMPLATES "FIRST_WARNING").getD ⟨"", "", "", ""⟩)
          "FIRST_WARNING" [] "n1" 7] ∧
    (sendNotification demoUser "FIRST_WARNING" [] true false "n1" 7).2.warnings =
      demoUser.warnings ∧
    (sendNotification demoUser "FIRST_WARNING" [] true false "n1" 7).2.banUntil =
      demoUser.banUntil ∧
    (sendNotification demoUser "FIRST_WARNING" [] true false "n1" 7).2.flagHistory =
      demoUser.flagHistory) :=
  ⟨rfl, sendNotification_email_failure_harmless demoUser "FIRST_WARNING" [] true "n1" 7
    ((NOTIFICATION_TEMPLATES "FIRST_WARNING").getD ⟨"", "", "", ""⟩) rfl⟩

/-- C10: `markNotificationsAsRead` with an empty id list marks every
notification of the user as read; with a non-empty list it marks exactly
the notifications whose ids occur in the list (changing only their `read`
field) and leaves every other notification entirely unchanged. -/
theorem markNotificationsAsRead_spec (u : User) (ids : List String) :
    (markNotificationsAsRead u ids).1 = true ∧
    (∀ n ∈ (markNotificationsAsRead u []).2.notifications, n.read = true) ∧
    List.Forall₂ (fun n n' : Notification =>
        ((ids = [] ∨ n.id ∈ ids) → n' = { n with read := true }) ∧
        (ids ≠ [] → n.id ∉ ids → n' = n))
      u.notifications (markNotificationsAsRead u ids).2.notifications := by
  refine ⟨rfl, ?_, ?_⟩
  · intro n hn
    simp only [markNotificationsAsRead, List.isEmpty_nil, Bool.true_or, if_true,
      List.mem_map] at hn
    obtain ⟨m, _, rfl⟩ := hn
    rfl
  · simp only [markNotificationsAsRead]
    rw [List.forall₂_map_right_iff]
    rw [List.forall₂_same]
    intro n _
    by_cases hmem : n.id ∈ ids
    · have hc : ids.contains n.id = true := by simpa using hmem
      simp [hc, hmem]
    · have hc : ids.contains n.id = false := by simpa using hmem
      by_cases hids : ids = []
      · subst hids
        simp
      · have h1 : ids.isEmpty = false := by simpa using hids
        simp [h1, hc, hmem, hids]

/-- Witness for C10 at a one-notification user and a matching id list. -/
theorem markNotificationsAsRead_spec_witness :
    (markNotificationsAsRead demoUser ["a"]).1 = true ∧
    (∀ n ∈ (markNotificationsAsRead demoUser []).2.notifications, n.read = true) ∧
    List.Forall₂ (fun n n' : Notification =>
        ((["a"] = ([] : List String) ∨ n.id ∈ ["a"]) → n' = { n with read := true }) ∧
        (["a"] ≠ ([] : List String) → n.id ∉ ["a"] → n' = n))
      demoUser.notifications (markNotificationsAsRead demoUser ["a"]).2.notifications :=
  markNotificationsAsRead_spec demoUser ["a"]

/-! ### Claims C5–C6 : pipeline call discipline -/

/-- C5: with both providers configured (so the primary is Perspective and
the secondary OpenAI), the secondary adapter is called only when the
primary call errors, and then at most once; whenever the primary call
succeeds — flagged or clean — the secondary is never called. -/
theorem moderateFeedback_secondary_failure_only
    (callAdapter : AdapterCall → Option ModResult) (text : List Char) :
    (AdapterCall.openai ∈ (moderateFeedback true true callAdapter text).2 →
      callAdapter AdapterCall.perspective = none) ∧
    (moderateFeedback true true callAdapter text).2.count AdapterCall.openai ≤ 1 ∧
    (∀ v, callAdapter AdapterCall.perspective = some v →
      AdapterCall.openai ∉ (moderateFeedback true true callAdapter text).2) := by
  unfold moderateFeedback
  by_cases hw : text.all isJsWhitespace
  · simp [hw]
  · by_cases hf : (ruleBasedModeration text).flagged
    · simp [hw, hf]
    · cases hp : callAdapter AdapterCall.perspective with
      | some v =>
          by_cases hvf : v.flagged <;> simp [hw, hf, hp, hvf]
      | none =>
          cases hs : callAdapter AdapterCall.openai with
          | some v' =>
              by_cases hvf : v'.flagged <;> simp [hw, hf, hp, hs, hvf]
          | none => simp [hw, hf, hp, hs]

/-- Adapter behaviour used by the C5 witness: the primary errors, the
secondary returns a flagged verdict. -/
def demoAdapterBehaviour : AdapterCall → Option ModResult
  | AdapterCall.perspective => none
  | AdapterCall.openai => some ⟨true, "r", "OpenAI"⟩

/-- Witness for C5: the primary errors and the flagged secondary is used. -/
theorem moderateFeedback_secondary_failure_only_witness :
    (AdapterCall.openai ∈
        (moderateFeedback true true demoAdapterBehaviour "hello".toList).2 →
      demoAdapterBehaviour AdapterCall.perspective = none) ∧
    (moderateFeedback true true demoAdapterBehaviour
        "hello".toList).2.count AdapterCall.openai ≤ 1 ∧
    (∀ v, demoAdapterBehaviour AdapterCall.perspective = some v →
      AdapterCall.openai ∉
        (moderateFeedback true true demoAdapterBehaviour "hello".toList).2) :=
  moderateFeedback_secondary_failure_only demoAdapterBehaviour "hello".toList

/-- Every bad word is nonempty and consists of lowercase ASCII letters. -/
theorem badWords_props (w : List Char) (hw : w ∈ badWords) :
    w ≠ [] ∧ w.all (fun c => 'a' ≤ c && c ≤ 'z') = true := by
  fin_cases hw <;> refine ⟨by decide, by decide⟩

/-- A substring occurrence puts the head of the needle into the haystack. -/
theorem mem_of_listContainsSub (c : Char) (w hay : List Char)
    (h : listContainsSub (c :: w) hay = true) : c ∈ hay := by
  induction hay with
  | nil => simp [listContainsSub] at h
  | cons d rest ih =>
      simp only [listContainsSub, Bool.or_eq_true, decide_eq_true_eq,
        List.length_cons, List.take_succ_cons, List.cons.injEq] at h
      rcases h with ⟨rfl, _⟩ | h
      · exact List.mem_cons_self d rest
      · exact List.mem_cons_of_mem _ (ih h)

/-- No JavaScript-whitespace character lowercases into `a`–`z`. -/
theorem jsWhitespace_toLower_not_alpha (c : Char) (h : isJsWhitespace c = true) :
    ¬('a' ≤ Char.toLower c ∧ Char.toLower c ≤ 'z') := by
  simp only [isJsWhitespace, Bool.or_eq_true, decide_eq_true_eq] at h
  rcases h with ((((((((rfl | rfl) | rfl) | rfl) | rfl) | rfl) | rfl) | rfl) | rfl) | rfl <;>
    decide

/-- C6: any text containing a configured bad word (case-insensitively) is
flagged by the local rule filter, the verdict carries the provider tag of
the rule filter ("Rule-based Filter", how the code spells the spec value
`provider=local`), and no classifier adapter is called, whatever the
provider configuration and adapter behaviour. -/
theorem moderateFeedback_badword_stays_local (hasPerspective hasOpenAI : Bool)
    (callAdapter : AdapterCall → Option ModResult) (text w : List Char)
    (hw : w ∈ badWords)
    (hsub : listContainsSub w (text.map Char.toLower) = true) :
    (moderateFeedback hasPerspective hasOpenAI callAdapter text).1.flagged = true ∧
    (moderateFeedback hasPerspective hasOpenAI callAdapter text).1.provider =
      "Rule-based Filter" ∧
    (moderateFeedback hasPerspective hasOpenAI callAdapter text).2 = [] := by
  obtain ⟨hne, hlow⟩ := badWords_props w hw
  obtain ⟨c, w', rfl⟩ : ∃ c w', w = c :: w' := by
    cases w with
    | nil => exact absurd rfl hne
    | cons c w' => exact ⟨c, w', rfl⟩
  have hc : c ∈ text.map Char.toLower := mem_of_listContainsSub c w' _ hsub
  obtain ⟨c0, hc0mem, hEq⟩ := List.mem_map.mp hc
  have hca : 'a' ≤ Char.toLower c0 ∧ Char.toLower c0 ≤ 'z' := by
    rw [hEq]
    simpa using (List.all_eq_true.mp hlow c (List.mem_cons_self c w'))
  have hnw : isJsWhitespace c0 = false := by
    cases h : isJsWhitespace c0 with
    | false => rfl
    | true => exact absurd hca (jsWhitespace_toLower_not_alpha c0 h)
  have hall : text.all isJsWhitespace = false := by
    cases h : text.all isJsWhitespace with
    | false => rfl
    | true => rw [List.all_eq_true.mp h c0 hc0mem] at hnw; cases hnw
  have hbw : (badWords.any fun v => listContainsSub v (text.map Char.toLower)) = true :=
    List.any_eq_true.mpr ⟨c :: w', hw, hsub⟩
  have hflag : (ruleBasedModeration text).flagged = true := by
    simp [ruleBasedModeration, hbw]
  refine ⟨?_, ?_, ?_⟩ <;> simp [moderateFeedback, hall, hflag, ruleBasedModeration, hbw]

/-- Witness for C6: "this is spam" with both adapters erroring. -/
theorem moderateFeedback_badword_stays_local_witness :
    ("spam".toList ∈ badWords ∧
      listContainsSub "spam".toList ("this is spam".toList.map Char.toLower) = true) ∧
    ((moderateFeedback true true (fun _ => none) "this is spam".toList).1.flagged = true ∧
     (moderateFeedback true true (fun _ => none) "this is spam".toList).1.provider =
       "Rule-based Filter" ∧
     (moderateFeedback true true (fun _ => none) "this is spam".toList).2 = []) :=
  ⟨⟨by decide, by decide⟩,
   moderateFeedback_badword_stays_local true true (fun _ => none)
     "this is spam".toList "spam".toList (by decide) (by decide)⟩

/-! ### Claim C7 : characterisation of the local rule filter

`claimLocalFilterCond` renders the condition list of the claim literally: runs
of identical characters (any characters), a digit run of 10+ anywhere,
and a repeated chunk of any 1–3 characters.  The code is stricter: its
runs and chunks only involve characters matchable by regex `.` (no line
terminators), and its digit run must be delimited by word boundaries.
The clauses "a run of 9+ identical characters" and "a run of 6–8
identical characters" are jointly equivalent to a window of 6 identical
characters existing, which `claimIdenticalRun 6` expresses (and
`claimIdenticalRun 9` is listed alongside, mirroring the claim). -/

/-- The claim reading of "run of `k`+ identical characters" (no restriction on
which character). -/
def claimIdenticalRun (k : Nat) (l : List Char) : Bool :=
  existsWindow l k fun w =>
    match w with
    | [] => false
    | c :: r => r.all fun d => d = c

/-- The claim reading of "digit run of 10+" (anywhere in the text). -/
def claimDigitRun (l : List Char) : Bool :=
  existsWindow l 10 fun w => w.all isDigitChar

/-- The claim reading of "short chunk of 1–3 characters repeated 5+ times"
(no restriction on the characters of the chunk). -/
def claimChunkRepeat (l : List Char) : Bool :=
  (List.range (l.length + 1)).any fun i =>
    [1, 2, 3].any fun chunkLen =>
      decide (i + 5 * chunkLen ≤ l.length) &&
      leadsWithCopies (window l i chunkLen) 5 (l.drop i)

/-- The flagging condition of claim C7, read literally. -/
def claimLocalFilterCond (l : List Char) : Bool :=
  (badWords.any fun w => listContainsSub w (l.map Char.toLower)) ||
  claimIdenticalRun 9 l || claimIdenticalRun 6 l || regexUpperRun l ||
  claimDigitRun l || claimChunkRepeat l || decide (l.length > 2000)

/-- The amended flagging condition: as the claim lists it, but with the
digit run required to be standalone (word-boundary-delimited, the
`\b\d{10,}\b` semantics) and the identical-character runs and repeated
chunks restricted to characters the regex `.` matches (no line
terminators). -/
def amendedLocalFilterCond (l : List Char) : Bool :=
  (badWords.any fun w => listContainsSub w (l.map Char.toLower)) ||
  regexRepeatedChar 9 l || regexRepeatedChar 6 l || regexUpperRun l ||
  regexLongNumber l || regexRepeatedChunk l || decide (l.length > 2000)

/-- C7, counterexample: "a1234567890a" contains a digit run of 10+, so
the condition list of the claim says it must be flagged, but the regex
`/\b\d{10,}\b/` of the code requires word boundaries around the run, the digits are
embedded between letters, and no other rule fires: the filter does not
flag it. -/
theorem ruleBasedModeration_claim_iff_counterexample :
    claimLocalFilterCond "a1234567890a".toList = true ∧
    (ruleBasedModeration "a1234567890a".toList).flagged = false := by
  decide

theorem existsWindow_mono (l : List Char) (n : Nat) (p q : List Char → Bool)
    (hpq : ∀ w, p w = true → q w = true) (h : existsWindow l n p = true) :
    existsWindow l n q = true := by
  simp only [existsWindow, List.any_eq_true, Bool.and_eq_true] at h ⊢
  obtain ⟨i, hi, hle, hp⟩ := h
  exact ⟨i, hi, hle, hpq _ hp⟩

/-- The identical-run match of the code implies the identical-run
condition of the claim (which ignores the `.`-matchability of the character). -/
theorem regexRepeatedChar_imp_claim (k : Nat) (l : List Char)
    (h : regexRepeatedChar k l = true) : claimIdenticalRun k l = true := by
  unfold regexRepeatedChar at h
  unfold claimIdenticalRun
  refine existsWindow_mono l k _ _ ?_ h
  intro w hw
  cases w with
  | nil => simp [allSameDotChar] at hw
  | cons c r =>
      simp only [allSameDotChar, Bool.and_eq_true] at hw
      simpa using hw.2

/-- The bounded digit-run match of the code implies the plain digit-run
condition of the claim. -/
theorem regexLongNumber_imp_claim (l : List Char)
    (h : regexLongNumber l = true) : claimDigitRun l = true := by
  simp only [regexLongNumber, List.any_eq_true, Bool.and_eq_true,
    decide_eq_true_eq] at h
  obtain ⟨i, hi, j, _, ⟨⟨⟨⟨h10, hjlen⟩, hdig⟩, _⟩, _⟩⟩ := h
  simp only [claimDigitRun, existsWindow, List.any_eq_true, Bool.and_eq_true,
    decide_eq_true_eq]
  refine ⟨i, hi, by omega, ?_⟩
  have hw : window l i 10 = (window l i (j - i)).take 10 := by
    simp only [window, List.take_take]
    rw [Nat.min_eq_left (by omega)]
  rw [hw, List.all_eq_true]
  intro x hx
  exact List.all_eq_true.mp hdig x (List.mem_of_mem_take hx)

/-- The repeated-chunk match of the code implies the repeated-chunk
condition of the claim (which ignores the `.`-matchability of the chunk). -/
theorem regexRepeatedChunk_imp_claim (l : List Char)
    (h : regexRepeatedChunk l = true) : claimChunkRepeat l = true := by
  simp only [regexRepeatedChunk, claimChunkRepeat, List.any_eq_true,
    Bool.and_eq_true, decide_eq_true_eq] at h ⊢
  obtain ⟨i, hi, L, hL, ⟨⟨hlen, _⟩, hcopies⟩⟩ := h
  exact ⟨i, hi, L, hL, hlen, hcopies⟩

theorem boolOrRearrange (a c d e f g b : Bool) :
    (a || (c || d || e || f) || g || b) = (a || b || c || d || e || f || g) := by
  cases a <;> cases b <;> cases c <;> cases d <;> cases e <;> cases f <;> cases g <;> rfl

/-- C7, amended: the filter flags exactly under the amended condition
list (bad word; 9+ run and 6–8 run of identical `.`-matchable
characters; 15+ uppercase; standalone word-boundary-delimited digit run
of 10+; 1–3-character `.`-matchable chunk repeated 5+ times; length over
2000).  It reports only the boolean `flagged` plus which rule fired —
`flagged` is exactly the disjunction of the four `details` booleans, with
no severity score.  Moreover every flag the code raises satisfies the
(weaker) condition list of the original claim, so the correction only removes
inputs the claim wrongly said would be flagged. -/
theorem ruleBasedModeration_flagged_amended (l : List Char) :
    (ruleBasedModeration l).flagged = amendedLocalFilterCond l ∧
    (ruleBasedModeration l).flagged =
      ((ruleBasedModeration l).details.badWordsHit ||
       (ruleBasedModeration l).details.suspicious ||
       (ruleBasedModeration l).details.tooLong ||
       (ruleBasedModeration l).details.spam) ∧
    ((ruleBasedModeration l).flagged = true → claimLocalFilterCond l = true) := by
  refine ⟨?_, rfl, ?_⟩
  · show ((badWords.any fun w => listContainsSub w (l.map Char.toLower)) ||
        (regexRepeatedChar 6 l || regexUpperRun l || regexLongNumber l ||
          regexRepeatedChunk l) ||
        decide (l.length > 2000) || regexRepeatedChar 9 l) =
      amendedLocalFilterCond l
    unfold amendedLocalFilterCond
    exact boolOrRearrange _ _ _ _ _ _ _
  · intro h
    have h' : ((badWords.any fun w => listContainsSub w (l.map Char.toLower)) ||
        (regexRepeatedChar 6 l || regexUpperRun l || regexLongNumber l ||
          regexRepeatedChunk l) ||
        decide (l.length > 2000) || regexRepeatedChar 9 l) = true := h
    simp only [Bool.or_eq_true] at h'
    unfold claimLocalFilterCond
    simp only [Bool.or_eq_true]
    rcases h' with ((hA | (((h6 | hD) | hE) | hF)) | hG) | h9
    · simp [hA]
    · simp [regexRepeatedChar_imp_claim 6 l h6]
    · simp [hD]
    · simp [regexLongNumber_imp_claim l hE]
    · simp [regexRepeatedChunk_imp_claim l hF]
    · simp [hG]
    · simp [regexRepeatedChar_imp_claim 9 l h9]

/-- Witness for the amended C7 characterisation at a concrete input. -/
theorem ruleBasedModeration_flagged_amended_witness :
    (ruleBasedModeration "hello spam".toList).flagged =
      amendedLocalFilterCond "hello spam".toList ∧
    (ruleBasedModeration "hello spam".toList).flagged =
      ((ruleBasedModeration "hello spam".toList).details.badWordsHit ||
       (ruleBasedModeration "hello spam".toList).details.suspicious ||
       (ruleBasedModeration "hello spam".toList).details.tooLong ||
       (ruleBasedModeration "hello spam".toList).details.spam) ∧
    ((ruleBasedModeration "hello spam".toList).flagged = true →
      claimLocalFilterCond "hello spam".toList = true) :=
  ruleBasedModeration_flagged_amended "hello spam".toList

end WhistleSpace
